import Mathlib

/-!
Shallow embedding of the `CgcSpider` scrapy spider (`src/cgc/spiders/cgc.py`)
and proofs about the claims of its specification.

The spider is a four-stage pipeline: Loader (CSV → certificate ids),
Form Locator (homepage → input name / form action / method), Submitter
(one form submission per certificate, with a manual fallback), and
Extractor/Downloader (detail page → image URLs → files on disk).

Python values are modelled as follows: strings are `String`, `None`-able
strings are `Option String`, the scrapy request objects are the `Req`
structure below recording the wire-relevant fields the source sets,
logger calls are `LogEvent` values, and the filesystem is a function
`String → Option (List Nat)` from paths to byte contents.  External
collaborators (the HTML selector engine, `urljoin`, the network) enter as
parameters: e.g. the list returned by a CSS query is a parameter, and URL
resolution is an abstract `join : String → String → String` argument.
-/

namespace Cgc

/-! ### Loader (`parse_home`, lines 109-131)

The CSV loop is, for the designated column:
```python
for row in reader:
    cert = row.get("Cert")
    if cert:
        certs.append(cert.strip())
```
A row's cell is `Option String` (`None` when the column is missing from the
row).  Python's truthiness test `if cert:` passes exactly when the cell is
present and non-empty *before* stripping; the appended value is the
stripped cell. -/

/-- Python's whitespace test for `str.strip()` (the ASCII whitespace
characters). -/
def isPySpace (c : Char) : Bool :=
  c == ' ' || c == '\t' || c == '\n' || c == '\r' || c == '\x0b' || c == '\x0c'

/-- Python `str.strip()`: remove leading and trailing whitespace. -/
def pyStrip (s : String) : String :=
  String.mk (((s.toList.dropWhile isPySpace).reverse.dropWhile
    isPySpace).reverse)

def loadCerts : List (Option String) → List String
  | [] => []
  | none :: rest => loadCerts rest
  | some s :: rest =>
      if s = "" then loadCerts rest else pyStrip s :: loadCerts rest

/-! ### Log events

One constructor per `self.logger.…` call site that the claims talk about. -/

inductive LogEvent where
  | infoFoundInput (name : String)
  | warnInputNoName (id : String)
  | warnNoInput
  | errorCsvNotFound
  | errorCsvMalformed
  | errorNoCerts
  | infoFoundCerts (n : Nat)
  | warnFromResponseFailed
  | infoAttemptManual (method target field : String)
  | infoNoImages (cert : String)
  | infoFoundImages (cert : String) (n : Nat)
  deriving DecidableEq, Repr

/-! ### Requests

`Req` records the wire-relevant and bookkeeping fields the source passes to
`Request` / `FormRequest`: the url, the HTTP method, the form-encoded body
(`formdata` of a `FormRequest`), the `cert` / `index` correlation values
from `meta`, and the `dont_filter` flag. -/

inductive ReqKind where
  | normal        -- `FormRequest.from_response` submission
  | fallbackPost  -- manual POST in `_manual_form_submit`
  | download      -- image download scheduled by `parse_cert`
  deriving DecidableEq, Repr

structure Req where
  kind : ReqKind
  url : String
  method : String
  /-- the `formdata` sent as a form-encoded body (`FormRequest`), if any -/
  body : Option (List (String × String)) := none
  /-- the `cert` correlation value carried in `meta` -/
  metaCert : String
  /-- the 1-based image `index` carried in `meta` (downloads only) -/
  metaIndex : Nat := 0
  dontFilter : Bool
  deriving DecidableEq, Repr

/-! ### Callback outcomes

The submission code runs inside generators (`parse_home` yields, and
`_manual_form_submit` is consumed through `yield from`).  An uncaught
exception inside them — concretely, the `TypeError` of the GET fallback
branch below — escapes the generator: scrapy logs a spider error and stops
consuming it, so no later request of the same callback is ever issued.
`SubmitOutcome` records the log events emitted and the requests yielded
before the callback either finished (`crashed = false`) or died on an
uncaught exception (`crashed = true`). -/

structure SubmitOutcome where
  logs : List LogEvent
  reqs : List Req
  /-- an uncaught exception escaped the generator; nothing after this point
  runs -/
  crashed : Bool
  deriving DecidableEq, Repr

/-! ### Fallback submitter (`_manual_form_submit`, lines 164-203) -/

/-- The fixed guess list of line 171:
`candidate_field_names = ["cert", "certificate", "serial", "lookup", "search", "q"]`. -/
def fallbackGuessNames : List String :=
  ["cert", "certificate", "serial", "lookup", "search", "q"]

/-- Line 175: `candidate_field_names = found_names + candidate_field_names`,
where `found_names = response.css('form input::attr(name)').getall() or []`
is the document-order list of `name` attributes of inputs inside forms
(passed here as the parameter `found`). -/
def candidateFieldNames (found : List String) : List String :=
  found ++ fallbackGuessNames

/-- Line 169: `target = response.url if not form_action else
urljoin(response.url, form_action)`.  `formAction` is `none` when no form
containing the tel input was found, and the attribute string otherwise;
`join` is the external `urljoin`. -/
def resolveTarget (pageUrl : String) (formAction : Option String)
    (join : String → String → String) : String :=
  match formAction with
  | none => pageUrl
  | some a => if a = "" then pageUrl else join pageUrl a

/-- Model of `_manual_form_submit` (lines 164-203).  The `for field_name in
candidate_field_names:` loop body unconditionally ends in `break`, so at
most the first candidate is ever attempted, and the attempt is logged
(line 180) before anything else happens.  In the GET branch the source then
calls `Request(url=target, method="GET", …, dont_filter=True,
params=formdata if hasattr(Request, "params") else None)`: scrapy's
`Request.__init__` has no `params` parameter and no `**kwargs` (the
source's own comment on line 189 concedes Request "doesn't support
params"), and the conditional only selects the *value* of the keyword, so
the call raises `TypeError: unexpected keyword argument` before any
request object exists — nothing is yielded and the exception escapes the
generator (`crashed = true`).  In the else branch the source builds
`FormRequest(url=target, formdata=formdata, method="POST", …,
dont_filter=True)` and yields it: a form-encoded POST body. -/
def manualFormSubmit (cert pageUrl : String) (formAction : Option String)
    (join : String → String → String) (method : String) (found : List String) :
    SubmitOutcome :=
  let target := resolveTarget pageUrl formAction join
  match candidateFieldNames found with
  | [] => ⟨[], [], false⟩
  | fieldName :: _ =>
      let formdata := [(fieldName, cert)]
      if method = "GET" then
        ⟨[.infoAttemptManual method target fieldName], [], true⟩
      else
        ⟨[.infoAttemptManual method target fieldName],
         [{ kind := .fallbackPost, url := target, method := "POST",
            body := some formdata, metaCert := cert, dontFilter := true }],
         false⟩

/-- The first (and only) form field name a request carries, if any:
the key of its body formdata. -/
def reqFieldName (r : Req) : Option String :=
  match r.body with
  | some ((f, _) :: _) => some f
  | _ => none

/-! ### Submitter (`parse_home`, lines 139-162)

Per certificate, with `input_name` present the source calls
`FormRequest.from_response(response, formdata={input_name: cert},
clickdata={"name": "lookup"}, …, meta=meta, dont_filter=True)` inside a
`try`; on any exception it logs a warning and falls back to
`_manual_form_submit` for that same certificate.  With no `input_name` it
goes straight to `_manual_form_submit`.

Whether `FormRequest.from_response` raises is library/page behaviour, so it
is a parameter `fails : String → Bool` indexed by the certificate.  The
request `from_response` builds resolves the form action and merges hidden
fields internally (library behaviour); we record the explicit formdata it
was given and the meta/`dont_filter` arguments the source passes. -/

def normalSubmitReq (inputName cert pageUrl : String)
    (formAction : Option String) (join : String → String → String)
    (method : String) : Req :=
  { kind := .normal, url := resolveTarget pageUrl formAction join,
    method := method, body := some [(inputName, cert)],
    metaCert := cert, dontFilter := true }

/-- The body of the `for cert in certs:` loop of lines 141-162, for one
certificate.  The `try` wraps only `FormRequest.from_response`; an
exception inside `_manual_form_submit` (its GET branch) is not caught
here, so its `crashed` outcome propagates. -/
def submitOne (inputName : Option String) (fails : String → Bool)
    (pageUrl : String) (formAction : Option String)
    (join : String → String → String) (method : String)
    (found : List String) (cert : String) : SubmitOutcome :=
  match inputName with
  | some name =>
      if fails cert then
        let fb := manualFormSubmit cert pageUrl formAction join method found
        ⟨.warnFromResponseFailed :: fb.logs, fb.reqs, fb.crashed⟩
      else
        ⟨[], [normalSubmitReq name cert pageUrl formAction join method],
          false⟩
  | none => manualFormSubmit cert pageUrl formAction join method found

/-- The whole `for cert in certs:` loop: logs and requests in loop order,
stopping at the first certificate whose submission raises — an uncaught
exception aborts the whole callback, so the remaining certificates are
never reached. -/
def submitAll (inputName : Option String) (fails : String → Bool)
    (pageUrl : String) (formAction : Option String)
    (join : String → String → String) (method : String)
    (found : List String) : List String → SubmitOutcome
  | [] => ⟨[], [], false⟩
  | c :: cs =>
      let o := submitOne inputName fails pageUrl formAction join method
        found c
      if o.crashed then o
      else
        let rest := submitAll inputName fails pageUrl formAction join method
          found cs
        ⟨o.logs ++ rest.logs, o.reqs ++ rest.reqs, rest.crashed⟩

/-! ### `parse_home` end to end (lines 77-162)

The CSV read can end three ways before any submission: `FileNotFoundError`
(line 126), any other exception (line 129), or success with the parsed
rows.  `LoadResult` is that outcome. -/

inductive LoadResult where
  | notFound
  | malformed
  | ok (rows : List (Option String))
  deriving DecidableEq, Repr

/-- Model of `parse_home`: the input-element log (lines 101-106), the CSV
load with its two terminal error paths (lines 126-131), the `if not certs:`
terminal error (lines 133-135), then one submission attempt per
certificate.  Returns the log events and the requests yielded, in order,
together with whether the callback died on an uncaught exception of the
submission loop. -/
def parseHome (lr : LoadResult) (inputName inputId : Option String)
    (fails : String → Bool) (pageUrl : String) (formAction : Option String)
    (join : String → String → String) (method : String)
    (found : List String) : SubmitOutcome :=
  let headLogs : List LogEvent :=
    match inputName, inputId with
    | some n, _ => [.infoFoundInput n]
    | none, some i => [.warnInputNoName i]
    | none, none => [.warnNoInput]
  match lr with
  | .notFound => ⟨headLogs ++ [.errorCsvNotFound], [], false⟩
  | .malformed => ⟨headLogs ++ [.errorCsvMalformed], [], false⟩
  | .ok rows =>
      let certs := loadCerts rows
      if certs = [] then ⟨headLogs ++ [.errorNoCerts], [], false⟩
      else
        let sub := submitAll inputName fails pageUrl formAction join method
          found certs
        ⟨headLogs ++ [.infoFoundCerts certs.length] ++ sub.logs, sub.reqs,
          sub.crashed⟩

/-! ### Extractor (`parse_cert`, lines 205-253)

The three CSS queries on the detail page are parameters (lists of raw
attribute strings in document order):
`hrefs` from `div.certlookup-images-item a::attr(href)`,
`srcs` from `div.certlookup-images-item a img::attr(src)`,
`directSrcs` from `div.certlookup-images-item img::attr(src)`.
`resolve` is the external `response.urljoin`.  The collection loop
(lines 224-229) is:
```python
for u in hrefs + srcs + direct_srcs:
    if not u:
        continue
    u = response.urljoin(u)
    if u not in imgs:
        imgs.append(u)
```
-/

structure CertPage where
  hrefs : List String
  srcs : List String
  directSrcs : List String
  deriving DecidableEq, Repr

/-- One iteration of the collection loop: skip empty strings, resolve,
append if not already present. -/
def addImg (resolve : String → String) (imgs : List String) (u : String) :
    List String :=
  if u = "" then imgs
  else
    let v := resolve u
    if v ∈ imgs then imgs else imgs ++ [v]

/-- The image-URL list `imgs` built by `parse_cert`. -/
def collectImgs (resolve : String → String) (pg : CertPage) : List String :=
  (pg.hrefs ++ pg.srcs ++ pg.directSrcs).foldl (addImg resolve) []

/-- Specification-side definition ("deduplicate while preserving first-seen
order"): keep each element's first occurrence, dropping the later ones.
Written independently of the source loop, to be compared with
`collectImgs`. -/
def specFirstDedup : List String → List String
  | [] => []
  | x :: xs => x :: specFirstDedup (xs.filter fun y => y ≠ x)
  termination_by l => l.length
  decreasing_by
    simp only [List.length_cons]
    exact Nat.lt_succ_of_le (List.length_filter_le _ _)

/-- The output row (`item = {"cert": cert}` plus `image_{i+1}` columns,
lines 237-239). -/
structure Item where
  cert : String
  imageCols : List (String × String)
  deriving DecidableEq, Repr

/-- Model of `parse_cert`: logs, the single yielded item, and the download requests
(lines 245-253), each carrying `meta={"cert": cert, "index": i + 1, …}` and
`dont_filter=True`. -/
def parseCert (resolve : String → String) (cert : String) (pg : CertPage) :
    List LogEvent × Item × List Req :=
  let imgs := collectImgs resolve pg
  let logs : List LogEvent :=
    if imgs = [] then [.infoNoImages cert]
    else [.infoFoundImages cert imgs.length]
  let item : Item :=
    { cert := cert,
      imageCols := imgs.enum.map fun p =>
        ("image_" ++ toString (p.1 + 1), p.2) }
  let reqs : List Req := imgs.enum.map fun p =>
    { kind := .download, url := p.2, method := "GET",
      metaCert := cert, metaIndex := p.1 + 1, dontFilter := true }
  (logs, item, reqs)

/-- One `parse_cert` call per certificate submission's response (the
per-response callback of the pipeline): the sequence of items emitted for a
run, given each certificate's detail page and the resolver. -/
def runRecords (resolve : String → String) (certs : List String)
    (pageOf : String → CertPage) : List Item :=
  certs.map fun c => (parseCert resolve c (pageOf c)).2.1

/-! ### Downloader (`save_image`, lines 255-296)

The filesystem is a map from paths to byte contents.  The save is two
operations on it: `open(path, "wb")` creates/truncates the file at the
final path (the content at `path` becomes empty), then `f.write(body)`
writes the full payload.  `saveImageTrace` lists the observable filesystem
states: before, after `open`, after `write`. -/

def FS : Type := String → Option (List Nat)

def fsWrite (fs : FS) (p : String) (b : List Nat) : FS :=
  fun q => if q = p then some b else fs q

/-- Observable filesystem states during `save_image`'s write (lines
291-293): initial, after `open(path, "wb")` truncates, after the write. -/
def saveImageTrace (fs : FS) (path : String) (body : List Nat) : List FS :=
  [fs, fsWrite fs path [], fsWrite (fsWrite fs path []) path body]

/-- The filesystem after a completed save. -/
def saveFinal (fs : FS) (path : String) (body : List Nat) : FS :=
  fsWrite (fsWrite fs path []) path body

/-- Value of `self.images_store` (line 42). -/
def imagesStore : String := "images"

/-- The destination path `os.path.join(self.images_store, cert)` joined
with `f"image_{index}{ext}"` (lines 264, 288-289). -/
def savePath (cert : String) (index : Nat) (ext : String) : String :=
  imagesStore ++ "/" ++ cert ++ "/image_" ++ toString index ++ ext

/-! ### Extension inference (`save_image`, lines 272-286)

```python
def _ext_from_url(u):
    path = urlsplit(unquote(u)).path
    base = os.path.basename(path)
    if "." in base:
        return os.path.splitext(base)[1]
    return ""

ext = _ext_from_url(response.url)
if not ext:
    ctype = response.headers.get("Content-Type", b"").decode("utf-8", errors="ignore")
    ext = mimetypes.guess_extension(ctype.split(";")[0].strip()) or ""
if not ext:
    ext = ".jpg"
```
The helpers below embed the Python standard-library pieces this code calls,
for the ASCII inputs the spider deals in: `urllib.parse.unquote` (percent
decoding), the path component of `urllib.parse.urlsplit`,
`posixpath.basename`, `posixpath.splitext`, and a finite table of
`mimetypes.guess_extension` for image content types. -/

/-- Value of a hex digit, `none` for non-hex characters. -/
def hexVal (c : Char) : Option Nat :=
  if '0' ≤ c ∧ c ≤ '9' then some (c.toNat - '0'.toNat)
  else if 'a' ≤ c ∧ c ≤ 'f' then some (10 + c.toNat - 'a'.toNat)
  else if 'A' ≤ c ∧ c ≤ 'F' then some (10 + c.toNat - 'A'.toNat)
  else none

/-- Split at every occurrence of `sep`, dropping the separators (Python
`str.split(sep)` for a one-character separator). -/
def splitOnChar (sep : Char) : List Char → List (List Char)
  | [] => [[]]
  | c :: rest =>
      if c = sep then [] :: splitOnChar sep rest
      else
        match splitOnChar sep rest with
        | [] => [[c]]
        | p :: ps => (c :: p) :: ps

/-- Decode the pieces that followed a `'%'`: a piece starting with two hex
digits contributes the decoded character plus its tail, any other piece is
kept literally with its `'%'` restored. -/
def decodePieces : List (List Char) → List Char
  | [] => []
  | piece :: rest =>
      (match piece with
        | a :: b :: tail =>
            match hexVal a, hexVal b with
            | some hi, some lo => Char.ofNat (16 * hi + lo) :: tail
            | _, _ => '%' :: piece
        | _ => '%' :: piece) ++ decodePieces rest

/-- Model of `urllib.parse.unquote` on ASCII text: each `%hh` with two hex digits
becomes the character with code `hh`; a `%` not followed by two hex digits
is kept literally.  (Mirrors CPython's split-on-`'%'` implementation.) -/
def percentDecode (s : List Char) : List Char :=
  match splitOnChar '%' s with
  | [] => []
  | first :: rest => first ++ decodePieces rest

/-- Characters allowed in a URL scheme (`ascii_letters + digits + "+-."`). -/
def isSchemeChar (c : Char) : Bool :=
  c.isAlpha || c.isDigit || c == '+' || c == '-' || c == '.'

/-- Drop a leading `scheme:` the way `urlsplit` does: only when a `:`
occurs at a positive position, the first character is a letter, and all
characters before the `:` are scheme characters. -/
def dropScheme (s : List Char) : List Char :=
  match s.findIdx? (fun c => c == ':') with
  | none => s
  | some i =>
      let headAlpha : Bool := match s.head? with
        | some c => c.isAlpha
        | none => false
      if 0 < i ∧ headAlpha ∧ (s.take i).all isSchemeChar
      then s.drop (i + 1) else s

/-- Drop a leading `//netloc` the way `urlsplit` does: after `//`, the
netloc extends up to the next `/`, `?` or `#`. -/
def dropNetloc (s : List Char) : List Char :=
  match s with
  | '/' :: '/' :: rest =>
      rest.dropWhile fun c => !(c == '/' || c == '?' || c == '#')
  | _ => s

/-- The `path` component of `urllib.parse.urlsplit`: remove scheme and
netloc, then cut at the first `#` (fragment) and the first `?` (query). -/
def urlsplitPath (s : List Char) : List Char :=
  (((dropNetloc (dropScheme s)).takeWhile fun c => !(c == '#')).takeWhile
    fun c => !(c == '?'))

/-- Model of `posixpath.basename`: everything after the last `/`. -/
def basename (s : List Char) : List Char :=
  (s.reverse.takeWhile fun c => !(c == '/')).reverse

/-- The extension component of `posixpath.splitext` on a basename: from the
last dot to the end, unless every character before that dot is itself a dot
(leading dots mark a hidden file, not an extension). -/
def splitextExtension (base : List Char) : List Char :=
  if base.contains '.' then
    let revExt := base.reverse.takeWhile fun c => !(c == '.')
    let dotIdx := base.length - revExt.length - 1
    if (base.take dotIdx).any (fun c => !(c == '.')) then
      '.' :: revExt.reverse
    else []
  else []

/-- Model of `_ext_from_url` (lines 273-278). -/
def extFromUrl (u : String) : String :=
  let path := urlsplitPath (percentDecode u.toList)
  let base := basename path
  if base.contains '.' then String.mk (splitextExtension base) else ""

/-- The argument passed to `mimetypes.guess_extension`:
`ctype.split(";")[0].strip()` (line 284). -/
def mainContentType (ctype : String) : String :=
  pyStrip (String.mk ((splitOnChar ';' ctype.toList).headD []))

/-- Model of `mimetypes.guess_extension` restricted to a table of image content
types (the standard mapping for the types this downloader can meet);
`none` for everything else, as the library returns `None` for unknown
types. -/
def guessExtension (m : String) : Option String :=
  if m = "image/jpeg" then some ".jpg"
  else if m = "image/png" then some ".png"
  else if m = "image/gif" then some ".gif"
  else if m = "image/webp" then some ".webp"
  else if m = "image/bmp" then some ".bmp"
  else if m = "image/svg+xml" then some ".svg"
  else if m = "image/tiff" then some ".tiff"
  else none

/-- The extension chosen by `save_image` (lines 280-286): the URL's
extension if any, else the content-type guess if any, else `".jpg"`. -/
def inferExtension (url ctype : String) : String :=
  let ext := extFromUrl url
  let ext := if ext = "" then (guessExtension (mainContentType ctype)).getD ""
    else ext
  if ext = "" then ".jpg" else ext

/-! ### Substring test (used to state what a request does *not* carry) -/

/-- Decides whether `pat` occurs as a contiguous substring of `s`. -/
def containsSub (pat s : List Char) : Bool :=
  if pat.isPrefixOf s then true
  else
    match s with
    | [] => false
    | _ :: t => containsSub pat t

/-- String-level substring test. -/
def strContainsSub (s pat : String) : Bool :=
  containsSub pat.toList s.toList

/-! ## Helper lemmas -/

/-- Splitting a "not in `acc ++ [v]`" filter into its two conjuncts. -/
theorem filter_not_mem_append_singleton (acc : List String) (v : String) :
    ∀ l : List String,
      (l.filter fun y => y ∉ acc ++ [v])
        = (l.filter fun y => y ∉ acc).filter fun y => y ≠ v := by
  intro l
  rw [List.filter_filter]
  apply List.filter_congr
  intro x _
  by_cases h1 : x ∈ acc <;> by_cases h2 : x = v <;>
    simp [h1, h2, List.mem_append]

/-- The accumulator-passing collection loop computes first-occurrence
deduplication of the elements not already accumulated. -/
theorem foldl_addImg_dedup (resolve : String → String) :
    ∀ (us acc : List String),
      us.foldl (addImg resolve) acc
        = acc ++ specFirstDedup
            (((us.filter fun u => u ≠ "").map resolve).filter
              fun v => v ∉ acc) := by
  intro us
  induction us with
  | nil => intro acc; simp [specFirstDedup]
  | cons u ut ih =>
      intro acc
      by_cases hu : u = ""
      · simpa [hu, addImg] using ih acc
      · by_cases hv : resolve u ∈ acc
        · simpa [hu, addImg, hv] using ih acc
        · have step : (u :: ut).foldl (addImg resolve) acc
              = ut.foldl (addImg resolve) (acc ++ [resolve u]) := by
            simp [addImg, hu, hv]
          rw [step, ih (acc ++ [resolve u]),
            filter_not_mem_append_singleton acc (resolve u)]
          simp [hu, hv, specFirstDedup]

/-- Members of `specFirstDedup l` come from `l`. -/
theorem specFirstDedup_subset (l : List String) :
    ∀ a ∈ specFirstDedup l, a ∈ l := by
  induction l using specFirstDedup.induct with
  | case1 => simp [specFirstDedup]
  | case2 x xs ih =>
      intro a ha
      simp only [specFirstDedup, List.mem_cons] at ha
      rcases ha with h | h
      · simp [h]
      · have hm := List.mem_filter.mp (ih a h)
        simp [hm.1]

/-- The list `specFirstDedup l` has no duplicates. -/
theorem specFirstDedup_nodup (l : List String) : (specFirstDedup l).Nodup := by
  induction l using specFirstDedup.induct with
  | case1 => simp [specFirstDedup]
  | case2 x xs ih =>
      simp only [specFirstDedup]
      refine List.nodup_cons.mpr ⟨fun hx => ?_, ih⟩
      have hm := List.mem_filter.mp (specFirstDedup_subset _ x hx)
      simp at hm

/-- With a non-GET method, the fallback `_manual_form_submit` schedules
exactly one request, correlated with its certificate and exempt from
duplicate filtering, and the callback survives. -/
theorem manualFormSubmit_shape_of_ne_get (cert pageUrl : String)
    (formAction : Option String) (join : String → String → String)
    (method : String) (found : List String) (h : method ≠ "GET") :
    ∃ r : Req,
      (manualFormSubmit cert pageUrl formAction join method found).reqs = [r]
        ∧ (manualFormSubmit cert pageUrl formAction join method
            found).crashed = false
        ∧ r.metaCert = cert ∧ r.dontFilter = true := by
  unfold manualFormSubmit
  cases found <;> simp [candidateFieldNames, fallbackGuessNames, h]

/-- With method GET, the fallback raises before yielding: no request, and
the callback dies. -/
theorem manualFormSubmit_get (cert pageUrl : String)
    (formAction : Option String) (join : String → String → String)
    (found : List String) :
    (manualFormSubmit cert pageUrl formAction join "GET" found).reqs = []
      ∧ (manualFormSubmit cert pageUrl formAction join "GET"
          found).crashed = true := by
  unfold manualFormSubmit
  cases found <;> simp [candidateFieldNames, fallbackGuessNames]

/-- Every request the fallback does yield carries `dont_filter`. -/
theorem manualFormSubmit_dontFilter (cert pageUrl : String)
    (formAction : Option String) (join : String → String → String)
    (method : String) (found : List String) :
    ∀ r ∈ (manualFormSubmit cert pageUrl formAction join method found).reqs,
      r.dontFilter = true := by
  unfold manualFormSubmit
  cases found <;> by_cases h : method = "GET" <;>
    simp [candidateFieldNames, fallbackGuessNames, h]

/-- With a non-GET method, `submitOne` schedules exactly one request,
correlated with its certificate and exempt from duplicate filtering, and
the callback survives. -/
theorem submitOne_shape_of_ne_get (inputName : Option String)
    (fails : String → Bool) (pageUrl : String) (formAction : Option String)
    (join : String → String → String) (method : String)
    (found : List String) (cert : String) (h : method ≠ "GET") :
    ∃ r : Req,
      (submitOne inputName fails pageUrl formAction join method found
          cert).reqs = [r]
        ∧ (submitOne inputName fails pageUrl formAction join method found
            cert).crashed = false
        ∧ r.metaCert = cert ∧ r.dontFilter = true := by
  cases inputName with
  | none =>
      obtain ⟨r, h1, h2, h3, h4⟩ :=
        manualFormSubmit_shape_of_ne_get cert pageUrl formAction join method
          found h
      exact ⟨r, by simp [submitOne, h1], by simp [submitOne, h2], h3, h4⟩
  | some name =>
      by_cases hf : fails cert
      · obtain ⟨r, h1, h2, h3, h4⟩ :=
          manualFormSubmit_shape_of_ne_get cert pageUrl formAction join
            method found h
        exact ⟨r, by simp [submitOne, hf, h1], by simp [submitOne, hf, h2],
          h3, h4⟩
      · exact ⟨normalSubmitReq name cert pageUrl formAction join method,
          by simp [submitOne, hf], by simp [submitOne, hf], rfl, rfl⟩

/-- Every request `submitOne` yields carries `dont_filter`. -/
theorem submitOne_dontFilter (inputName : Option String)
    (fails : String → Bool) (pageUrl : String) (formAction : Option String)
    (join : String → String → String) (method : String)
    (found : List String) (cert : String) :
    ∀ r ∈ (submitOne inputName fails pageUrl formAction join method found
        cert).reqs, r.dontFilter = true := by
  have hm := manualFormSubmit_dontFilter cert pageUrl formAction join method
    found
  cases inputName with
  | none => simpa [submitOne] using hm
  | some name =>
      by_cases hf : fails cert
      · simpa [submitOne, hf] using hm
      · simp [submitOne, hf, normalSubmitReq]

/-- A certificate whose normal-mode construction fails crashes the GET
fallback: no request, callback dead. -/
theorem submitOne_get_fails (name : String) (fails : String → Bool)
    (pageUrl : String) (formAction : Option String)
    (join : String → String → String) (found : List String) (cert : String)
    (hf : fails cert = true) :
    (submitOne (some name) fails pageUrl formAction join "GET" found
        cert).reqs = []
      ∧ (submitOne (some name) fails pageUrl formAction join "GET" found
          cert).crashed = true := by
  have hg := manualFormSubmit_get cert pageUrl formAction join found
  exact ⟨by simp [submitOne, hf, hg.1], by simp [submitOne, hf, hg.2]⟩

/-- A certificate whose normal-mode construction succeeds never crashes. -/
theorem submitOne_not_fails_survives (name : String) (fails : String → Bool)
    (pageUrl : String) (formAction : Option String)
    (join : String → String → String) (method : String)
    (found : List String) (cert : String) (hf : fails cert = false) :
    (submitOne (some name) fails pageUrl formAction join method found
        cert).crashed = false := by
  simp [submitOne, hf]

/-- With a non-GET method the loop never crashes and schedules one
submission per loaded certificate, duplicates included. -/
theorem submitAll_shape_of_ne_get (inputName : Option String)
    (fails : String → Bool) (pageUrl : String) (formAction : Option String)
    (join : String → String → String) (method : String)
    (found : List String) (h : method ≠ "GET") :
    ∀ certs : List String,
      (submitAll inputName fails pageUrl formAction join method found
          certs).reqs.length = certs.length
        ∧ (submitAll inputName fails pageUrl formAction join method found
            certs).crashed = false := by
  intro certs
  induction certs with
  | nil => exact ⟨rfl, rfl⟩
  | cons c cs ih =>
      obtain ⟨r, h1, h2, -, -⟩ :=
        submitOne_shape_of_ne_get inputName fails pageUrl formAction join
          method found c h
      simp [submitAll, h1, h2, ih.1, ih.2]

/-- Every request the loop yields carries `dont_filter` (whether or not it
crashed part-way). -/
theorem submitAll_dontFilter (inputName : Option String)
    (fails : String → Bool) (pageUrl : String) (formAction : Option String)
    (join : String → String → String) (method : String)
    (found : List String) :
    ∀ certs : List String,
      ∀ r ∈ (submitAll inputName fails pageUrl formAction join method found
          certs).reqs, r.dontFilter = true := by
  intro certs
  induction certs with
  | nil => simp [submitAll]
  | cons c cs ih =>
      intro r hr
      by_cases hc : (submitOne inputName fails pageUrl formAction join
          method found c).crashed
      · simp only [submitAll] at hr
        rw [if_pos hc] at hr
        exact submitOne_dontFilter inputName fails pageUrl formAction join
          method found c r hr
      · simp only [submitAll] at hr
        rw [if_neg hc] at hr
        rcases List.mem_append.mp hr with h | h
        · exact submitOne_dontFilter inputName fails pageUrl formAction join
            method found c r h
        · exact ih r h

/-- With a non-GET method the loop distributes over concatenation. -/
theorem submitAll_append_of_ne_get (inputName : Option String)
    (fails : String → Bool) (pageUrl : String) (formAction : Option String)
    (join : String → String → String) (method : String)
    (found : List String) (h : method ≠ "GET") :
    ∀ xs ys : List String,
      (submitAll inputName fails pageUrl formAction join method found
          (xs ++ ys)).reqs
        = (submitAll inputName fails pageUrl formAction join method found
            xs).reqs
          ++ (submitAll inputName fails pageUrl formAction join method found
              ys).reqs := by
  intro xs ys
  induction xs with
  | nil => simp [submitAll]
  | cons c cs ih =>
      obtain ⟨r, h1, h2, -, -⟩ :=
        submitOne_shape_of_ne_get inputName fails pageUrl formAction join
          method found c h
      simp [submitAll, h1, h2, ih]

/-- With a non-GET method, the submissions correlated with an identifier
are exactly as many as its occurrences in the input. -/
theorem submitAll_count_of_ne_get (inputName : Option String)
    (fails : String → Bool) (pageUrl : String) (formAction : Option String)
    (join : String → String → String) (method : String)
    (found : List String) (c : String) (h : method ≠ "GET") :
    ∀ certs : List String,
      ((submitAll inputName fails pageUrl formAction join method found
          certs).reqs.filter fun r => r.metaCert == c).length
        = certs.count c := by
  intro certs
  induction certs with
  | nil => rfl
  | cons c2 cs ih =>
      obtain ⟨r, h1, h2, h3, -⟩ :=
        submitOne_shape_of_ne_get inputName fails pageUrl formAction join
          method found c2 h
      rw [List.count_cons]
      by_cases hcc : c2 == c
      · simp [submitAll, h1, h2, h3, hcc, ih]
      · simp [submitAll, h1, h2, h3, hcc, ih]

/-- The first crashing certificate keeps the requests of the certificates
before it and wipes out everything after it. -/
theorem submitAll_crash_at (inputName : Option String)
    (fails : String → Bool) (pageUrl : String) (formAction : Option String)
    (join : String → String → String) (method : String)
    (found : List String) (cert : String) (ys : List String) :
    ∀ xs : List String,
      (∀ x ∈ xs, (submitOne inputName fails pageUrl formAction join method
          found x).crashed = false) →
      (submitOne inputName fails pageUrl formAction join method found
          cert).crashed = true →
      (submitAll inputName fails pageUrl formAction join method found
          (xs ++ cert :: ys)).reqs
          = (submitAll inputName fails pageUrl formAction join method found
              xs).reqs
            ++ (submitOne inputName fails pageUrl formAction join method
                found cert).reqs
        ∧ (submitAll inputName fails pageUrl formAction join method found
            (xs ++ cert :: ys)).crashed = true := by
  intro xs
  induction xs with
  | nil =>
      intro _ hc
      constructor <;> simp [submitAll, hc]
  | cons x xs2 ih =>
      intro hxs hc
      have hx := hxs x (List.mem_cons_self x xs2)
      obtain ⟨ih1, ih2⟩ := ih (fun y hy => hxs y (List.mem_cons_of_mem x hy))
        hc
      constructor <;> simp [submitAll, hx, ih1, ih2]

/-! ## Claims -/

/-- C1 (counterexample): the Loader does *not* skip a row whose value is
whitespace-only.  On the claimed scenario — column `Cert`, rows
`["1234567890", "  ", "2000000555"]` — the truthiness test `if cert:` runs
before `strip()`, so the row `"  "` passes it and is appended stripped:
the loader produces 3 identifiers, the middle one the empty string, not
the claimed 2. -/
theorem c1_loader_counterexample :
    loadCerts [some "1234567890", some "  ", some "2000000555"]
      = ["1234567890", "", "2000000555"] ∧
    "" ∈ loadCerts [some "1234567890", some "  ", some "2000000555"] ∧
    (loadCerts [some "1234567890", some "  ", some "2000000555"]).length ≠ 2 := by
  decide

/-- C1 (amended): the Loader skips exactly the rows whose value is missing
or empty *before* trimming, and trims the surviving values; a
whitespace-only row is kept and yields the empty identifier.  Equivalently,
the output is the non-empty raw cells, each stripped, in order (so the
scenario of the claim yields the 3 identifiers
`["1234567890", "", "2000000555"]`). -/
theorem c1_loader_amended (rows : List (Option String)) :
    loadCerts rows
      = ((rows.filterMap id).filter fun s => s ≠ "").map pyStrip := by
  induction rows with
  | nil => rfl
  | cons r rest ih =>
      cases r with
      | none => simpa using ih
      | some s => by_cases hs : s = "" <;> simp [loadCerts, hs, ih]

/-- C2 (counterexample): "a single submission per certificate" fails when
the recorded form method is GET: the fallback for certificate
`"1234567890"` logs the attempt with the first candidate but the request
construction raises (scrapy `Request` accepts no `params` keyword), so
zero submissions are issued and the callback dies. -/
theorem c2_single_submission_counterexample :
    (manualFormSubmit "1234567890" "https://www.cgccards.com/" none
        (fun _ a => a) "GET" []).reqs = [] ∧
    (manualFormSubmit "1234567890" "https://www.cgccards.com/" none
        (fun _ a => a) "GET" []).crashed = true := by
  decide

/-- C2 (amended): the candidate list is exactly the observed input names
followed by the fixed guesses
`["cert", "certificate", "serial", "lookup", "search", "q"]`, and only the
FIRST candidate of this combined list is ever attempted — a single attempt
per certificate, never an iteration over further candidates.  With a
non-GET recorded method that attempt issues exactly one submission whose
field name is the first candidate; with a GET recorded method the attempt
is logged but the request construction raises a `TypeError`, so no
submission is issued. -/
theorem c2_fallback_first_candidate_amended (cert pageUrl : String)
    (formAction : Option String) (join : String → String → String)
    (method : String) (found : List String) (field : String)
    (rest : List String) (h : candidateFieldNames found = field :: rest) :
    candidateFieldNames found
      = found ++ ["cert", "certificate", "serial", "lookup", "search", "q"] ∧
    (manualFormSubmit cert pageUrl formAction join method found).logs
      = [.infoAttemptManual method (resolveTarget pageUrl formAction join)
          field] ∧
    (method ≠ "GET" →
      (manualFormSubmit cert pageUrl formAction join method
          found).reqs.length = 1 ∧
      (manualFormSubmit cert pageUrl formAction join method found).reqs.map
          reqFieldName = [some field]) ∧
    (method = "GET" →
      (manualFormSubmit cert pageUrl formAction join method found).reqs = []
        ∧ (manualFormSubmit cert pageUrl formAction join method
            found).crashed = true) := by
  refine ⟨rfl, ?_, fun hm => ?_, fun hm => ?_⟩
  · by_cases hm : method = "GET" <;> simp [manualFormSubmit, h, hm]
  · simp [manualFormSubmit, h, hm, reqFieldName]
  · simp [manualFormSubmit, h, hm]

/-- C2 (witness): with observed input name `"certNo"`, the POST fallback
submits once with field `"certNo"` (the first candidate), and the GET
fallback submits nothing. -/
theorem c2_fallback_first_candidate_amended_witness :
    (manualFormSubmit "1234567890" "https://www.cgccards.com/" none
        (fun _ a => a) "POST" ["certNo"]).reqs.map reqFieldName
      = [some "certNo"] ∧
    (manualFormSubmit "1234567890" "https://www.cgccards.com/" none
        (fun _ a => a) "GET" ["certNo"]).reqs = [] := by
  obtain ⟨-, -, h3, -⟩ := c2_fallback_first_candidate_amended "1234567890"
    "https://www.cgccards.com/" none (fun _ a => a) "POST" ["certNo"]
    "certNo" ["cert", "certificate", "serial", "lookup", "search", "q"]
    (by decide)
  obtain ⟨-, -, -, h4⟩ := c2_fallback_first_candidate_amended "1234567890"
    "https://www.cgccards.com/" none (fun _ a => a) "GET" ["certNo"]
    "certNo" ["cert", "certificate", "serial", "lookup", "search", "q"]
    (by decide)
  exact ⟨(h3 (by decide)).2, (h4 rfl).1⟩

/-- C3 (counterexample): in fallback GET mode the certificate value is not
sent as a query parameter — no request is issued at all: for certificate
`"2000000555"` with form action `/certlookup/`, the GET fallback schedules
zero requests because the `Request(..., params=...)` construction raises,
and the callback dies. -/
theorem c3_get_query_param_counterexample :
    (manualFormSubmit "2000000555" "https://www.cgccards.com/"
        (some "/certlookup/") (fun _ a => a) "GET" []).reqs = [] ∧
    (manualFormSubmit "2000000555" "https://www.cgccards.com/"
        (some "/certlookup/") (fun _ a => a) "GET" []).crashed = true := by
  decide

/-- C3 (amended): in fallback mode, when the recorded method is POST the
chosen field name mapped to the certificate value is sent as a
form-encoded body of a POST to the resolved target; when the recorded
method is GET, the request construction raises a `TypeError` (scrapy's
`Request` accepts no `params` keyword) before anything is yielded, so no
request is issued and the callback is aborted. -/
theorem c3_fallback_method_amended (cert pageUrl : String)
    (formAction : Option String) (join : String → String → String)
    (found : List String) (field : String) (rest : List String)
    (h : candidateFieldNames found = field :: rest) :
    (manualFormSubmit cert pageUrl formAction join "POST" found).reqs
      = [{ kind := .fallbackPost,
           url := resolveTarget pageUrl formAction join, method := "POST",
           body := some [(field, cert)], metaCert := cert,
           dontFilter := true }] ∧
    (manualFormSubmit cert pageUrl formAction join "POST" found).crashed
      = false ∧
    (manualFormSubmit cert pageUrl formAction join "GET" found).reqs = [] ∧
    (manualFormSubmit cert pageUrl formAction join "GET" found).crashed
      = true := by
  refine ⟨?_, ?_, ?_, ?_⟩ <;> simp [manualFormSubmit, h]

/-- C3 (witness): the amended statement at certificate `"2000000555"`,
form action `/certlookup/`, and no observed input names. -/
theorem c3_fallback_method_amended_witness :
    (manualFormSubmit "2000000555" "https://www.cgccards.com/"
        (some "/certlookup/") (fun _ a => a) "POST" []).reqs
      = [{ kind := .fallbackPost, url := "/certlookup/", method := "POST",
           body := some [("cert", "2000000555")], metaCert := "2000000555",
           dontFilter := true }] ∧
    (manualFormSubmit "2000000555" "https://www.cgccards.com/"
        (some "/certlookup/") (fun _ a => a) "GET" []).reqs = [] := by
  obtain ⟨h1, -, h3, -⟩ := c3_fallback_method_amended "2000000555"
    "https://www.cgccards.com/" (some "/certlookup/") (fun _ a => a) []
    "cert" ["certificate", "serial", "lookup", "search", "q"] (by decide)
  exact ⟨h1, h3⟩

/-- C4 (counterexample): the save is not all-or-nothing under the final
filename.  Starting from an empty filesystem and saving payload
`[7, 7, 7]` to `images/1234567890/image_1.jpg`, the trace of observable
states contains one (after `open(path, "wb")` truncates, before the write)
in which the final path holds neither its old content nor the payload. -/
theorem c4_atomic_write_counterexample :
    ¬ ∀ fsMid ∈ saveImageTrace (fun _ => none) "images/1234567890/image_1.jpg"
          [7, 7, 7],
        fsMid "images/1234567890/image_1.jpg" = none ∨
        fsMid "images/1234567890/image_1.jpg" = some [7, 7, 7] := by
  intro h
  have hmem : fsWrite (fun _ => none) "images/1234567890/image_1.jpg" []
      ∈ saveImageTrace (fun _ => none) "images/1234567890/image_1.jpg"
        [7, 7, 7] := by
    simp [saveImageTrace]
  have := h _ hmem
  simp [fsWrite] at this

/-- C4 (amended): `save_image` writes the payload directly to the final
path `{output_root}/{certificate_id}/image_{index}.{ext}` (no temporary
name): after a completed save that path holds exactly the full payload and
no other path changes, and saving the same image twice at the same
certificate and index yields identical byte content; however the write is
not all-or-nothing — between the truncating `open` and the `write`, an
empty file is observable under the final filename. -/
theorem c4_save_amended (fs : FS) (p : String) (b : List Nat) :
    saveFinal fs p b p = some b ∧
    (∀ q, q ≠ p → saveFinal fs p b q = fs q) ∧
    saveFinal (saveFinal fs p b) p b p = some b ∧
    ∃ fsMid ∈ saveImageTrace fs p b, fsMid p = some [] := by
  refine ⟨by simp [saveFinal, fsWrite], fun q hq => ?_,
    by simp [saveFinal, fsWrite], ⟨fsWrite fs p [], by simp [saveImageTrace],
      by simp [fsWrite]⟩⟩
  simp [saveFinal, fsWrite, hq]

/-- C4 (witness): the amended statement on an empty filesystem, payload
`[3, 4]`, destination `images/9/image_1.jpg`, sibling `images/9/image_2.jpg`
untouched. -/
theorem c4_save_amended_witness :
    saveFinal (fun _ => none) "images/9/image_1.jpg" [3, 4]
        "images/9/image_1.jpg" = some [3, 4] ∧
    saveFinal (fun _ => none) "images/9/image_1.jpg" [3, 4]
        "images/9/image_2.jpg" = none ∧
    saveFinal (saveFinal (fun _ => none) "images/9/image_1.jpg" [3, 4])
        "images/9/image_1.jpg" [3, 4] "images/9/image_1.jpg" = some [3, 4] := by
  obtain ⟨h1, h2, h3, -⟩ :=
    c4_save_amended (fun _ => none) "images/9/image_1.jpg" [3, 4]
  exact ⟨h1, h2 "images/9/image_2.jpg" (by decide), h3⟩

/-- C5: for every detail page, the extracted image-URL list has no
duplicates and equals the first-occurrence deduplication of the references
collected in strategy order (anchor hrefs, then img srcs inside anchors,
then direct img srcs), each non-empty reference resolved against the page
URL before deduplication. -/
theorem c5_extractor_dedup_first_seen (resolve : String → String)
    (pg : CertPage) :
    (collectImgs resolve pg).Nodup ∧
    collectImgs resolve pg
      = specFirstDedup
          (((pg.hrefs ++ pg.srcs ++ pg.directSrcs).filter
              fun u => u ≠ "").map resolve) := by
  have he : collectImgs resolve pg
      = specFirstDedup
          (((pg.hrefs ++ pg.srcs ++ pg.directSrcs).filter
              fun u => u ≠ "").map resolve) := by
    unfold collectImgs
    rw [foldl_addImg_dedup]
    simp
  exact ⟨he ▸ specFirstDedup_nodup _, he⟩

/-- C6: extension inference tries the URL path's extension (after percent
decoding) first, then the declared content type, then defaults to `.jpg`;
for a URL ending `.png` with content type `image/gif` the URL wins and the
chosen extension is `.png`. -/
theorem c6_extension_precedence (url ctype : String) :
    (extFromUrl url ≠ "" → inferExtension url ctype = extFromUrl url) ∧
    (∀ e : String, extFromUrl url = "" →
      guessExtension (mainContentType ctype) = some e → e ≠ "" →
      inferExtension url ctype = e) ∧
    (extFromUrl url = "" → guessExtension (mainContentType ctype) = none →
      inferExtension url ctype = ".jpg") ∧
    inferExtension "https://www.cgccards.com/images/scan.png" "image/gif"
      = ".png" := by
  refine ⟨fun h => ?_, fun e h1 h2 he => ?_, fun h1 h2 => ?_, by decide⟩
  · simp [inferExtension, h]
  · simp [inferExtension, h1, h2, he]
  · simp [inferExtension, h1, h2]

/-- C6 (witness): each branch of the precedence at a concrete input — URL
extension beats `image/gif`; `image/webp` fills in when the URL has none;
`.jpg` when neither source yields an extension. -/
theorem c6_extension_precedence_witness :
    inferExtension "https://x.test/a.png" "image/gif" = ".png" ∧
    inferExtension "https://x.test/a" "image/webp" = ".webp" ∧
    inferExtension "https://x.test/a" "text/unknown" = ".jpg" := by
  refine ⟨?_, ?_, ?_⟩
  · have h := (c6_extension_precedence "https://x.test/a.png" "image/gif").1
      (by decide)
    rw [h]; decide
  · exact (c6_extension_precedence "https://x.test/a" "image/webp").2.1
      ".webp" (by decide) (by decide) (by decide)
  · exact (c6_extension_precedence "https://x.test/a" "text/unknown").2.2.1
      (by decide) (by decide)

/-- C7 (counterexample): the failure is not confined to the failing
certificate when the recorded form method is GET.  With certificates
`["111", "777", "222"]` of which only `"777"` fails normal-mode
construction, the fallback retry for `"777"` raises and kills the
callback: only `"111"` is submitted — `"222"`, which did not fail, gets no
submission. -/
theorem c7_per_cert_isolation_counterexample :
    ((submitAll (some "certNumber") (fun c => c == "777")
        "https://www.cgccards.com/" none (fun _ a => a) "GET" []
        ["111", "777", "222"]).reqs.map Req.metaCert) = ["111"] ∧
    (submitAll (some "certNumber") (fun c => c == "777")
        "https://www.cgccards.com/" none (fun _ a => a) "GET" []
        ["111", "777", "222"]).crashed = true := by
  decide

/-- C7 (amended): when normal-mode construction fails for a certificate, a
warning is logged and that same certificate is immediately retried using
fallback mode.  When the recorded form method is not GET the failure is
confined to that certificate: the loop decomposes around it and a
certificate's submission depends only on its own construction outcome.
When the recorded method is GET, the fallback retry raises and the
callback dies: if the failing certificate is the first failing one, the
certificates before it keep their submissions and every certificate after
it receives none. -/
theorem c7_normal_failure_per_cert_fallback (name : String)
    (fails : String → Bool) (pageUrl : String) (formAction : Option String)
    (join : String → String → String) (method : String)
    (found : List String) (cert : String) (xs ys : List String)
    (h : fails cert = true) :
    (submitOne (some name) fails pageUrl formAction join method found
        cert).reqs
      = (manualFormSubmit cert pageUrl formAction join method found).reqs ∧
    LogEvent.warnFromResponseFailed
      ∈ (submitOne (some name) fails pageUrl formAction join method found
          cert).logs ∧
    (method ≠ "GET" →
      (submitAll (some name) fails pageUrl formAction join method found
          (xs ++ cert :: ys)).reqs
        = (submitAll (some name) fails pageUrl formAction join method found
              xs).reqs
          ++ (submitOne (some name) fails pageUrl formAction join method
                found cert).reqs
          ++ (submitAll (some name) fails pageUrl formAction join method
                found ys).reqs) ∧
    (∀ fails2 : String → Bool, (∀ c, c ≠ cert → fails2 c = fails c) →
      ∀ c, c ≠ cert →
        submitOne (some name) fails2 pageUrl formAction join method found c
          = submitOne (some name) fails pageUrl formAction join method found
              c) ∧
    (method = "GET" → (∀ x ∈ xs, fails x = false) →
      (submitAll (some name) fails pageUrl formAction join method found
          (xs ++ cert :: ys)).reqs
        = (submitAll (some name) fails pageUrl formAction join method found
            xs).reqs ∧
      (submitAll (some name) fails pageUrl formAction join method found
          (xs ++ cert :: ys)).crashed = true) := by
  refine ⟨by simp [submitOne, h], by simp [submitOne, h], fun hm => ?_,
    fun fails2 hf c hc => ?_, fun hm hxs => ?_⟩
  · obtain ⟨r, h1, h2, -, -⟩ := submitOne_shape_of_ne_get (some name) fails
      pageUrl formAction join method found cert hm
    rw [submitAll_append_of_ne_get (some name) fails pageUrl formAction join
      method found hm xs (cert :: ys)]
    simp [submitAll, h2, List.append_assoc]
  · unfold submitOne
    rw [hf c hc]
  · subst hm
    obtain ⟨hr, hcr⟩ := submitOne_get_fails name fails pageUrl formAction
      join found cert h
    have hxs2 : ∀ x ∈ xs, (submitOne (some name) fails pageUrl formAction
        join "GET" found x).crashed = false := fun x hx =>
      submitOne_not_fails_survives name fails pageUrl formAction join "GET"
        found x (hxs x hx)
    obtain ⟨h1, h2⟩ := submitAll_crash_at (some name) fails pageUrl
      formAction join "GET" found cert ys xs hxs2 hcr
    exact ⟨by rw [h1, hr, List.append_nil], h2⟩

/-- C7 (witness): the amended statement with only `"777"` failing among
`["111", "777", "222"]`: under POST the loop decomposes around `"777"`;
under GET the submissions stop after `"111"`. -/
theorem c7_normal_failure_per_cert_fallback_witness :
    (submitAll (some "certNumber") (fun c => c == "777")
        "https://www.cgccards.com/" none (fun _ a => a) "POST" []
        (["111"] ++ "777" :: ["222"])).reqs
      = (submitAll (some "certNumber") (fun c => c == "777")
            "https://www.cgccards.com/" none (fun _ a => a) "POST" []
            ["111"]).reqs
        ++ (submitOne (some "certNumber") (fun c => c == "777")
              "https://www.cgccards.com/" none (fun _ a => a) "POST" []
              "777").reqs
        ++ (submitAll (some "certNumber") (fun c => c == "777")
              "https://www.cgccards.com/" none (fun _ a => a) "POST" []
              ["222"]).reqs ∧
    (submitAll (some "certNumber") (fun c => c == "777")
        "https://www.cgccards.com/" none (fun _ a => a) "GET" []
        (["111"] ++ "777" :: ["222"])).reqs
      = (submitAll (some "certNumber") (fun c => c == "777")
          "https://www.cgccards.com/" none (fun _ a => a) "GET" []
          ["111"]).reqs := by
  obtain ⟨-, -, h3, -, -⟩ := c7_normal_failure_per_cert_fallback
    "certNumber" (fun c => c == "777") "https://www.cgccards.com/" none
    (fun _ a => a) "POST" [] "777" ["111"] ["222"] (by decide)
  obtain ⟨-, -, -, -, h5⟩ := c7_normal_failure_per_cert_fallback
    "certNumber" (fun c => c == "777") "https://www.cgccards.com/" none
    (fun _ a => a) "GET" [] "777" ["111"] ["222"] (by decide)
  exact ⟨h3 (by decide), (h5 rfl (by decide)).1⟩

/-- C8 (counterexample): an input file that exists and parses but yields no
usable identifier (here: a single row whose cell is the empty string) also
terminates the run — an error is logged and no submission is issued — even
though it is neither `InputNotFound` nor `InputMalformed`; so those two are
not the only run-halting conditions. -/
theorem c8_terminal_conditions_counterexample :
    parseHome (.ok [some ""]) (some "certNumber") none (fun _ => false)
        "https://www.cgccards.com/" none (fun _ a => a) "POST" []
      = ⟨[.infoFoundInput "certNumber", .errorNoCerts], [], false⟩ ∧
    LoadResult.ok [some ""] ≠ LoadResult.notFound ∧
    LoadResult.ok [some ""] ≠ LoadResult.malformed := by
  decide

/-- C8 (amended): a missing input file or an unparseable input file
terminates the run with an error logged and no submission issued, but they
are not the only halting conditions: an input that loads with zero usable
identifiers also halts the run with an error and no submissions (the
`if not certs:` check), and with a GET form method and no located input
name the first fallback submission raises before any request is issued and
aborts the callback.  Restricted to non-GET form methods, the run issues
no submissions exactly when input loading fails or the loaded identifier
list is empty. -/
theorem c8_terminal_conditions_amended (lr : LoadResult)
    (inputName inputId : Option String) (fails : String → Bool)
    (pageUrl : String) (formAction : Option String)
    (join : String → String → String) (method : String)
    (found : List String) :
    ((parseHome .notFound inputName inputId fails pageUrl formAction join
        method found).reqs = [] ∧
      LogEvent.errorCsvNotFound
        ∈ (parseHome .notFound inputName inputId fails pageUrl formAction
            join method found).logs) ∧
    ((parseHome .malformed inputName inputId fails pageUrl formAction join
        method found).reqs = [] ∧
      LogEvent.errorCsvMalformed
        ∈ (parseHome .malformed inputName inputId fails pageUrl formAction
            join method found).logs) ∧
    (∀ rows, loadCerts rows = [] →
      (parseHome (.ok rows) inputName inputId fails pageUrl formAction join
          method found).reqs = [] ∧
      LogEvent.errorNoCerts
        ∈ (parseHome (.ok rows) inputName inputId fails pageUrl formAction
            join method found).logs) ∧
    (method ≠ "GET" →
      ((parseHome lr inputName inputId fails pageUrl formAction join method
          found).reqs = []
        ↔ lr = .notFound ∨ lr = .malformed
          ∨ ∃ rows, lr = .ok rows ∧ loadCerts rows = [])) ∧
    (method = "GET" → inputName = none → ∀ rows c cs,
      loadCerts rows = c :: cs →
      (parseHome (.ok rows) inputName inputId fails pageUrl formAction join
          method found).reqs = [] ∧
      (parseHome (.ok rows) inputName inputId fails pageUrl formAction join
          method found).crashed = true) := by
  refine ⟨⟨by simp [parseHome], by simp [parseHome]⟩,
    ⟨by simp [parseHome], by simp [parseHome]⟩,
    fun rows hrows => ⟨by simp [parseHome, hrows], by simp [parseHome, hrows]⟩,
    fun hm => ?_, fun hm hin rows c cs hrows => ?_⟩
  · cases lr with
    | notFound => simp [parseHome]
    | malformed => simp [parseHome]
    | ok rows =>
        by_cases hc : loadCerts rows = []
        · simp [parseHome, hc]
        · have hlen := (submitAll_shape_of_ne_get inputName fails pageUrl
            formAction join method found hm (loadCerts rows)).1
          simp [parseHome, hc]
          intro habs
          rw [habs] at hlen
          exact hc (List.length_eq_zero.mp hlen.symm)
  · subst hm
    subst hin
    have hg := manualFormSubmit_get c pageUrl formAction join found
    constructor <;>
      simp [parseHome, hrows, submitAll, submitOne, hg.1, hg.2]

/-- C8 (witness): the amended statement concretely — under POST the iff at
an input with one identifier, the zero-identifier error case, and under
GET with no input name the crash before any submission. -/
theorem c8_terminal_conditions_amended_witness :
    ((parseHome (.ok [some "1"]) (some "certNumber") none (fun _ => false)
        "https://www.cgccards.com/" none (fun _ a => a) "POST" []).reqs = []
      ↔ LoadResult.ok [some "1"] = .notFound
        ∨ LoadResult.ok [some "1"] = .malformed
        ∨ ∃ rows, LoadResult.ok [some "1"] = .ok rows
            ∧ loadCerts rows = []) ∧
    (parseHome (.ok [some ""]) (some "certNumber") none (fun _ => false)
        "https://www.cgccards.com/" none (fun _ a => a) "POST" []).reqs
      = [] ∧
    (parseHome (.ok [some "1"]) none none (fun _ => false)
        "https://www.cgccards.com/" none (fun _ a => a) "GET" []).reqs
      = [] := by
  obtain ⟨-, -, h3, h4, -⟩ := c8_terminal_conditions_amended
    (.ok [some "1"]) (some "certNumber") none (fun _ => false)
    "https://www.cgccards.com/" none (fun _ a => a) "POST" []
  obtain ⟨-, -, -, -, h5⟩ := c8_terminal_conditions_amended
    (.ok [some "1"]) none none (fun _ => false) "https://www.cgccards.com/"
    none (fun _ a => a) "GET" []
  exact ⟨h4 (by decide), (h3 [some ""] (by decide)).1,
    (h5 rfl rfl [some "1"] "1" [] (by decide)).1⟩

/-- C9: one `ExtractionRecord` — keyed by its certificate, with enumerated
`image_i` columns — is emitted per processed certificate, in order, and it
is emitted even when zero image URLs were extracted: the record then has no
image columns and the empty result is logged as info, not as an error. -/
theorem c9_one_record_per_cert (resolve : String → String)
    (certs : List String) (pageOf : String → CertPage) :
    (runRecords resolve certs pageOf).map Item.cert = certs ∧
    (runRecords resolve certs pageOf).length = certs.length ∧
    (∀ cert pg, (parseCert resolve cert pg).2.1.cert = cert ∧
      ((parseCert resolve cert pg).2.1.imageCols.map Prod.fst
        = (List.range (collectImgs resolve pg).length).map
            fun i => "image_" ++ toString (i + 1))) ∧
    (∀ cert pg, collectImgs resolve pg = [] →
      (parseCert resolve cert pg).2.1 = { cert := cert, imageCols := [] } ∧
      LogEvent.infoNoImages cert ∈ (parseCert resolve cert pg).1) := by
  have h3 : ∀ cert pg, (parseCert resolve cert pg).2.1.cert = cert :=
    fun _ _ => rfl
  refine ⟨?_, ?_, fun cert pg => ⟨h3 cert pg, ?_⟩, fun cert pg h => ?_⟩
  · simp [runRecords, List.map_map, Function.comp_def, h3]
  · simp [runRecords]
  · simp only [parseCert, List.map_map]
    rw [← List.enum_map_fst (collectImgs resolve pg), List.map_map]
    rfl
  · constructor <;> simp [parseCert, h]

/-- C9 (witness): a certificate whose detail page yields no image reference
still produces its record, with no image columns, and logs the empty result
as info. -/
theorem c9_one_record_per_cert_witness :
    (runRecords id ["1234567890"] fun _ => ⟨[], [], []⟩).map Item.cert
      = ["1234567890"] ∧
    (parseCert id "1234567890" ⟨[], [], []⟩).2.1
      = { cert := "1234567890", imageCols := [] } ∧
    LogEvent.infoNoImages "1234567890"
      ∈ (parseCert id "1234567890" ⟨[], [], []⟩).1 := by
  obtain ⟨h1, -, -, h4⟩ :=
    c9_one_record_per_cert id ["1234567890"] fun _ => ⟨[], [], []⟩
  obtain ⟨h5, h6⟩ := h4 "1234567890" ⟨[], [], []⟩ (by decide)
  exact ⟨h1, h5, h6⟩

/-- C10 (counterexample): "k duplicates produce k independent submissions"
fails under the GET fallback: with no located input name and a GET form
method, the input `["1234567890", "1234567890"]` (the same identifier
twice) produces zero submissions — the first fallback construction raises
and kills the callback. -/
theorem c10_duplicates_counterexample :
    (submitAll none (fun _ => false) "https://www.cgccards.com/" none
        (fun _ a => a) "GET" [] ["1234567890", "1234567890"]).reqs = [] ∧
    (submitAll none (fun _ => false) "https://www.cgccards.com/" none
        (fun _ a => a) "GET" [] ["1234567890", "1234567890"]).crashed
      = true ∧
    ["1234567890", "1234567890"].count "1234567890" = 2 := by
  decide

/-- C10 (amended): duplicate certificate identifiers are never
deduplicated — every submission and every image download that is issued
carries `dont_filter` — and, when the recorded form method is not GET (the
GET fallback raises instead of submitting), an input containing the same
identifier k times produces exactly k independent submissions, one record
being emitted per response; repeated downloads for the same
{certificate, index} target the same deterministic path
`{output_root}/{certificate_id}/image_{index}.{ext}`, a later write
replacing the earlier content. -/
theorem c10_duplicates_not_filtered (inputName : Option String)
    (fails : String → Bool) (pageUrl : String) (formAction : Option String)
    (join : String → String → String) (method : String)
    (found : List String) (certs : List String) (c : String)
    (resolve : String → String) (pageOf : String → CertPage) (cert : String)
    (pg : CertPage) (fs : FS) (b1 b2 : List Nat) (i : Nat) (e : String) :
    ((submitAll inputName fails pageUrl formAction join method found
        certs).reqs.all fun r => r.dontFilter) = true ∧
    (method ≠ "GET" →
      (submitAll inputName fails pageUrl formAction join method found
          certs).reqs.length = certs.length) ∧
    (method ≠ "GET" →
      ((submitAll inputName fails pageUrl formAction join method found
          certs).reqs.filter fun r => r.metaCert == c).length
        = certs.count c) ∧
    (runRecords resolve certs pageOf).length = certs.length ∧
    ((parseCert resolve cert pg).2.2.all fun r => r.dontFilter) = true ∧
    saveFinal (saveFinal fs (savePath cert i e) b1) (savePath cert i e) b2
        (savePath cert i e) = some b2 := by
  refine ⟨?_, fun hm => (submitAll_shape_of_ne_get inputName fails pageUrl
      formAction join method found hm certs).1,
    fun hm => submitAll_count_of_ne_get inputName fails pageUrl formAction
      join method found c hm certs,
    by simp [runRecords], ?_, by simp [saveFinal, fsWrite]⟩
  · rw [List.all_eq_true]
    intro r hr
    exact submitAll_dontFilter inputName fails pageUrl formAction join
      method found certs r hr
  · simp only [parseCert, List.all_eq_true]
    intro r hr
    obtain ⟨p, -, hp⟩ := List.mem_map.mp hr
    rw [← hp]

/-- C10 (witness): with method POST, the duplicated input
`["123", "123"]` yields 2 submissions, both correlated with `"123"`. -/
theorem c10_duplicates_not_filtered_witness :
    (submitAll (some "certNumber") (fun _ => false)
        "https://www.cgccards.com/" none (fun _ a => a) "POST" []
        ["123", "123"]).reqs.length = 2 ∧
    ((submitAll (some "certNumber") (fun _ => false)
        "https://www.cgccards.com/" none (fun _ a => a) "POST" []
        ["123", "123"]).reqs.filter fun r => r.metaCert == "123").length
      = ["123", "123"].count "123" := by
  obtain ⟨-, h2, h3, -, -, -⟩ := c10_duplicates_not_filtered
    (some "certNumber") (fun _ => false) "https://www.cgccards.com/" none
    (fun _ a => a) "POST" [] ["123", "123"] "123" id (fun _ => ⟨[], [], []⟩)
    "x" ⟨[], [], []⟩ (fun _ => none) [] [] 1 ".jpg"
  exact ⟨h2 (by decide), h3 (by decide)⟩

end Cgc
